import Mathlib

/-!
Shallow embedding of a hybrid vector-search application built on an external
vector-storage engine.  The embedding covers:

* `config.py`        — the configuration constants (namespace `Config`);
* `index_data.py`    — collection schema creation, tenant partition,
                       point construction, the batch upload loop and the
                       finalize phase (payload index + HNSW re-enable);
* `hybrid_searcher.py` — the `HybridSearcher` class: constructor and the
                       `search` method building two prefetches plus a fused
                       late-interaction query;
* `service.py`       — the HTTP facade `search_documents` and `health_check`.

Embedding vectors are opaque payloads here: the numeric content produced by the
external embedding models is irrelevant to the verified properties, so dense
vectors are carried as `List Int`, sparse vectors as index/weight pairs and
multivectors as lists of token vectors.  Fallible external calls (embedding
models, Python runtime errors such as `ZeroDivisionError` and `ValueError`
from `int(...)`) are modelled with `Option`/`Except`.
-/

namespace Config

def COLLECTION_NAME : String := "beir_nq"

def SHARD_NUMBER : Nat := 3

def REPLICATION_FACTOR : Nat := 2

def DENSE_VECTOR_SIZE : Nat := 1024

def DENSE_VECTOR_NAME : String := "dense_vector"

def SPARSE_VECTOR_NAME : String := "sparse_vector"

def LATE_INTERACTION_VECTOR_SIZE : Nat := 128

def LATE_INTERACTION_VECTOR_NAME : String := "late_interaction_vector"

def PAYLOAD_INDEX_FIELD : String := "user_id"

def NUM_USERS : Nat := 10

def BATCH_SIZE : Nat := 5

def PREFETCH_LIMIT : Nat := 50

def RERANK_LIMIT : Nat := 10

end Config

/-- Python integer floor division `a // b`.  Python raises `ZeroDivisionError`
when `b = 0`; that runtime error is modelled as `none`. -/
def pyFloorDiv (a b : Nat) : Option Nat :=
  if b = 0 then none else some (a / b)

/-- `index_data.py`: `docs_per_user = len(dataset) // config.NUM_USERS`.
`L` is the corpus size, `N` the tenant count. -/
def docs_per_user (L N : Nat) : Option Nat :=
  pyFloorDiv L N

/-- `index_data.py`: `user_id_num = min(global_index // docs_per_user,
config.NUM_USERS - 1)` — the tenant partition function, as a function of the
corpus size `L`, the tenant count `N` and the global document ordinal. -/
def user_id_num (L N global_index : Nat) : Option Nat := do
  let d ← docs_per_user L N
  let q ← pyFloorDiv global_index d
  return min q (N - 1)

/-! ## Collection schema (`index_data.py`, `create_collection`) -/

/-- Distance metric of a vector space (`models.Distance`). -/
inductive Distance where
  | cosine
  deriving DecidableEq, Repr

/-- Multivector comparator (`models.MultiVectorComparator`). -/
inductive MultiComparator where
  | MAX_SIM
  deriving DecidableEq, Repr

/-- Configuration of one named dense or multivector space, as passed in
`vectors_config` of `create_collection`.  `hnsw_m` is the HNSW graph fan-out
(`models.HnswConfigDiff(m=...)`): `0` disables/defers index construction. -/
inductive VectorSpaceConfig where
  | dense (size : Nat) (distance : Distance) (binaryQuantAlwaysRam : Bool)
      (hnsw_m : Nat)
  | multivector (size : Nat) (distance : Distance)
      (comparator : MultiComparator) (hnsw_m : Nat)
  deriving DecidableEq, Repr

/-- Configuration of one named sparse space (`models.SparseVectorParams`). -/
structure SparseSpaceConfig where
  modifierIDF : Bool
  deriving DecidableEq, Repr

/-- The arguments of `qdrant_client.create_collection` that describe the
collection's schema. -/
structure CollectionSchema where
  vectors_config : List (String × VectorSpaceConfig)
  sparse_vectors_config : List (String × SparseSpaceConfig)
  shard_number : Nat
  replication_factor : Nat
  deriving DecidableEq, Repr

/-- The schema `index_data.py` passes to `create_collection`: a dense space
with binary quantization and deferred HNSW (`m=0`), a multivector space with
the MaxSim comparator and HNSW disabled (`m=0`), and a sparse space with the
IDF modifier. -/
def createCollectionSchema : CollectionSchema :=
  { vectors_config :=
      [(Config.DENSE_VECTOR_NAME,
        .dense Config.DENSE_VECTOR_SIZE .cosine true 0),
       (Config.LATE_INTERACTION_VECTOR_NAME,
        .multivector Config.LATE_INTERACTION_VECTOR_SIZE .cosine .MAX_SIM 0)],
    sparse_vectors_config :=
      [(Config.SPARSE_VECTOR_NAME, { modifierIDF := true })],
    shard_number := Config.SHARD_NUMBER,
    replication_factor := Config.REPLICATION_FACTOR }

/-- All vector-space names the schema declares (dense/multivector spaces
followed by sparse spaces). -/
def schemaSpaceNames (schema : CollectionSchema) : List String :=
  schema.vectors_config.map Prod.fst ++
    schema.sparse_vectors_config.map Prod.fst

/-! ## Document identifier derivation (`index_data.py`, `PointStruct` id)

`id=int(batch["_id"][i].replace("doc", ""))`: Python's `str.replace` removes
*every* (non-overlapping, left-to-right) occurrence of the substring `"doc"`,
then `int(...)` parses the remainder, raising `ValueError` on a string that is
not an integer literal. -/

/-- Python `s.replace("doc", "")`: remove every non-overlapping occurrence of
`doc`, scanning left to right. -/
def stripDocAll : List Char → List Char
  | [] => []
  | [c] => [c]
  | [c1, c2] => [c1, c2]
  | c1 :: c2 :: c3 :: rest =>
    if c1 = 'd' ∧ c2 = 'o' ∧ c3 = 'c' then stripDocAll rest
    else c1 :: stripDocAll (c2 :: c3 :: rest)

/-- The characters CPython's `int(...)` strips as surrounding whitespace
(`Py_UNICODE_ISSPACE`): ASCII whitespace and control-separator characters
plus the Unicode space characters. -/
def pyWhitespaceChars : List Char :=
  ['\t', '\n', '\x0B', '\x0C', '\r', '\x1C', '\x1D', '\x1E', '\x1F',
   ' ', '\x85', '\u00A0', '\u1680', '\u2000', '\u2001', '\u2002',
   '\u2003', '\u2004', '\u2005', '\u2006', '\u2007', '\u2008',
   '\u2009', '\u200A', '\u2028', '\u2029', '\u202F', '\u205F',
   '\u3000']

/-- Whether `int(...)` treats a character as strippable whitespace. -/
def pyIsSpace (c : Char) : Bool :=
  decide (c ∈ pyWhitespaceChars)

/-- Strip the surrounding whitespace `int(...)` accepts, from both ends. -/
def pyStripWs (cs : List Char) : List Char :=
  ((cs.dropWhile pyIsSpace).reverse.dropWhile pyIsSpace).reverse

/-- Digit-sequence loop of `int(...)` after the first digit: decimal digits
with single underscores allowed only *between* digits (`1_2` parses to `12`;
leading, trailing or doubled underscores are a `ValueError`). -/
def parseDigitsUAux : Nat → List Char → Option Nat
  | acc, [] => some acc
  | acc, [c] =>
    if c.isDigit then some (acc * 10 + (c.toNat - 48)) else none
  | acc, c :: d :: rest =>
    if c.isDigit then parseDigitsUAux (acc * 10 + (c.toNat - 48)) (d :: rest)
    else if c = '_' ∧ d.isDigit then
      parseDigitsUAux (acc * 10 + (d.toNat - 48)) rest
    else none

/-- A digit sequence with underscore grouping: a digit first (an underscore
may not lead), then `parseDigitsUAux`. -/
def parseDigitsU : List Char → Option Nat
  | [] => none
  | c :: rest =>
    if c.isDigit then parseDigitsUAux (c.toNat - 48) rest else none

/-- `int(...)` after whitespace stripping: an optional sign directly followed
by an underscore-grouped digit sequence (`none` models `ValueError`). -/
def pyIntCore : List Char → Option Int
  | [] => none
  | c :: rest =>
    if c = '-' then (parseDigitsU rest).map (fun n => -(n : Int))
    else if c = '+' then (parseDigitsU rest).map (fun n => (n : Int))
    else (parseDigitsU (c :: rest)).map (fun n => (n : Int))

/-- Python `int(s)`: strip surrounding whitespace, then an optional sign and
an underscore-grouped decimal digit sequence.  Non-ASCII decimal digits
(Unicode Nd, which CPython also accepts) are not modelled; the fatal-error
statement about `doc_id` is therefore phrased via `pyIntRejectedChar`, which
is restricted to ASCII and so is unaffected by that gap. -/
def pyInt (cs : List Char) : Option Int :=
  pyIntCore (pyStripWs cs)

/-- An ASCII character that CPython's `int(...)` can never accept anywhere
in its input: not a digit, not a sign, not an underscore and not
whitespace.  Any string containing such a character raises `ValueError`. -/
def pyIntRejectedChar (c : Char) : Bool :=
  decide (c.toNat < 128) &&
    !(c.isDigit || c == '-' || c == '+' || c == '_' || pyIsSpace c)

/-- The document identifier of `index_data.py`:
`int(key.replace("doc", ""))`, `none` modelling the fatal `ValueError`. -/
def doc_id (key : String) : Option Int :=
  pyInt (stripDocAll key.data)

/-- Modelled from the spec's words, for comparison with `doc_id`: strip the
fixed string *prefix* `"doc"` from the key (leaving keys without that prefix
unchanged) and parse the remainder as an integer. -/
def doc_id_spec (key : String) : Option Int :=
  match key.data with
  | 'd' :: 'o' :: 'c' :: rest => pyInt rest
  | cs => pyInt cs

/-! ## Point construction and the batch upload loop (`index_data.py`) -/

/-- A dense embedding vector (content opaque). -/
abbrev DenseVec : Type := List Int

/-- A sparse embedding vector: (index, weight) pairs (content opaque). -/
abbrev SparseVec : Type := List (Nat × Int)

/-- A late-interaction multivector: one vector per token (content opaque). -/
abbrev MultiVec : Type := List (List Int)

/-- A named vector value stored on a point. -/
inductive VecValue where
  | dense (v : DenseVec)
  | sparse (v : SparseVec)
  | multi (v : MultiVec)
  deriving DecidableEq

/-- `models.PointStruct` as built by `index_data.py`. -/
structure PointStruct where
  id : Int
  vector : List (String × VecValue)
  payload : List (String × String)
  deriving DecidableEq

/-- One item of the source dataset batch: `_id`, `title`, `text` columns. -/
structure SourceItem where
  key : String
  title : String
  text : String
  deriving DecidableEq

/-- Construction of one `PointStruct` in the upload loop, for the item at
global ordinal `g` of a corpus of size `L`: tenant id from the partition
function, document id from `doc_id`, vectors only for the dense and sparse
spaces, payload with `_id`, `user_id`, `title`, `text`.  `none` models the
fatal runtime errors (`ZeroDivisionError`, `ValueError`). -/
def mkPoint (dEmb : String → DenseVec) (sEmb : String → SparseVec)
    (L g : Nat) (item : SourceItem) : Option PointStruct := do
  let uid ← user_id_num L Config.NUM_USERS g
  let i ← doc_id item.key
  return { id := i,
           vector := [(Config.DENSE_VECTOR_NAME, .dense (dEmb item.text)),
                      (Config.SPARSE_VECTOR_NAME, .sparse (sEmb item.text))],
           payload := [("_id", item.key),
                       ("user_id", "user_" ++ toString uid),
                       ("title", item.title),
                       ("text", item.text)] }

/-- The mutating storage-engine operations issued by `index_data.py`, in
issue order. -/
inductive EngineOp where
  | createCollection (name : String) (schema : CollectionSchema)
  | upsertBatch (points : List PointStruct)
  | createPayloadIndex (field : String) (field_schema : String)
  | updateCollection (diff : List (String × Nat))
  deriving DecidableEq

/-- `index_data.py`'s collection-existence guard: if the collection already
exists its schema is kept untouched and no engine call is made (logs and
skips); otherwise the collection is created with `createCollectionSchema`.
Returns the resulting collection state and the mutating operations issued. -/
def ensureCollection (existing : Option CollectionSchema) :
    Option CollectionSchema × List EngineOp :=
  match existing with
  | some sch => (some sch, [])
  | none =>
    (some createCollectionSchema,
     [.createCollection Config.COLLECTION_NAME createCollectionSchema])

/-- The points built for one batch whose first item has global ordinal `g`
(`points_to_upload` of the upload loop); `none` models a fatal error on any
item, which aborts the run. -/
def batchPoints (dEmb : String → DenseVec) (sEmb : String → SparseVec)
    (L : Nat) : Nat → List SourceItem → Option (List PointStruct)
  | _, [] => some []
  | g, item :: rest => do
    let p ← mkPoint dEmb sEmb L g item
    let ps ← batchPoints dEmb sEmb L (g + 1) rest
    return p :: ps

/-- The batch upload loop of `index_data.py`: one `upload_points` call per
batch, `processed_docs` advancing by the batch length. -/
def indexLoop (dEmb : String → DenseVec) (sEmb : String → SparseVec)
    (L : Nat) : Nat → List (List SourceItem) → Option (List EngineOp)
  | _, [] => some []
  | processed, b :: rest => do
    let pts ← batchPoints dEmb sEmb L processed b
    let ops ← indexLoop dEmb sEmb L (processed + b.length) rest
    return .upsertBatch pts :: ops

/-- The full upload-plus-finalize phase of `index_data.py`: all batch
upserts, then `create_payload_index(user_id, keyword)`, then
`update_collection` raising the dense space's HNSW `m` to `16`. -/
def indexRun (dEmb : String → DenseVec) (sEmb : String → SparseVec)
    (L : Nat) (batches : List (List SourceItem)) : Option (List EngineOp) :=
  (indexLoop dEmb sEmb L 0 batches).map
    (fun ops => ops ++
      [.createPayloadIndex Config.PAYLOAD_INDEX_FIELD "keyword",
       .updateCollection [(Config.DENSE_VECTOR_NAME, 16)]])

/-- Replace the HNSW `m` parameter of a vector-space config
(`models.VectorParamsDiff(hnsw_config=HnswConfigDiff(m=...))`). -/
def withHnswM : VectorSpaceConfig → Nat → VectorSpaceConfig
  | .dense size dist quant _, m => .dense size dist quant m
  | .multivector size dist comp _, m => .multivector size dist comp m

/-- Effect of `update_collection` on the collection schema: only the spaces
named in the diff have their HNSW `m` replaced. -/
def applyUpdateCollection (schema : CollectionSchema)
    (diff : List (String × Nat)) : CollectionSchema :=
  { schema with
    vectors_config := schema.vectors_config.map
      (fun nc =>
        match List.lookup nc.1 diff with
        | some m => (nc.1, withHnswM nc.2 m)
        | none => nc) }

/-- Observable storage-engine state affected by the indexing run. -/
structure EngineState where
  schema : CollectionSchema
  payload_indexes : List (String × String)
  points : List PointStruct

/-- Effect of one engine operation on the engine state. -/
def applyEngineOp (st : EngineState) : EngineOp → EngineState
  | .createCollection _ sch => { st with schema := sch }
  | .upsertBatch pts => { st with points := st.points ++ pts }
  | .createPayloadIndex f s =>
    { st with payload_indexes := st.payload_indexes ++ [(f, s)] }
  | .updateCollection diff =>
    { st with schema := applyUpdateCollection st.schema diff }

/-! ## Query orchestrator (`hybrid_searcher.py`) -/

/-- The query vector of one prefetch: dense or sparse. -/
inductive QueryVec where
  | dense (v : DenseVec)
  | sparse (v : SparseVec)
  deriving DecidableEq

/-- `models.Filter(must=[FieldCondition(key, MatchValue(value))])` — the only
filter shape the searcher builds. -/
structure QueryFilter where
  key : String
  value : String
  deriving DecidableEq

/-- One `models.Prefetch` entry. -/
structure Prefetch where
  query : QueryVec
  usingName : String
  limit : Nat
  filter : Option QueryFilter
  deriving DecidableEq

/-- The argument bundle of the single `query_points` call issued by
`HybridSearcher.search`. -/
structure QueryPointsRequest where
  collection_name : String
  prefetch : List Prefetch
  query : MultiVec
  usingName : String
  limit : Nat
  with_payload : List String
  with_vectors : Bool
  deriving DecidableEq

/-- A scored point returned by the storage engine. -/
structure ScoredPoint where
  id : Int
  score : Int
  payload : List (String × String)
  deriving DecidableEq

/-- A per-input embedding failure (a `query_embed` call raising). -/
inductive EmbError where
  | embeddingFailed
  deriving DecidableEq

/-- A model-initialization failure (a model constructor raising). -/
inductive InitError where
  | modelUnavailable
  deriving DecidableEq

/-- The observable log events of `HybridSearcher.__init__` about the
collection-existence check. -/
inductive LogEvent where
  | missingCollection (name : String)
  | usingCollection (name : String)
  deriving DecidableEq

/-- The state held by a constructed `HybridSearcher`: collection name, the
two limits copied from config, and the three embedding models (each a
fallible function from text to a vector). -/
structure HybridSearcher where
  collection_name : String
  rerank_limit : Nat
  prefetch_limit : Nat
  dense_embedding_model : String → Option DenseVec
  sparse_embedding_model : String → Option SparseVec
  late_interaction_embedding_model : String → Option MultiVec

/-- `HybridSearcher.__init__`: stores the limits from config, checks whether
the collection exists and only *logs* the outcome (a missing collection is
not an error), then initializes the three embedding models; a model
constructor that fails (`none`) raises out of the constructor. -/
def HybridSearcher.init (collection_name : String) (collectionExists : Bool)
    (denseModel : Option (String → Option DenseVec))
    (sparseModel : Option (String → Option SparseVec))
    (lateModel : Option (String → Option MultiVec)) :
    Except InitError (HybridSearcher × List LogEvent) :=
  let collLog := if collectionExists then LogEvent.usingCollection collection_name
    else LogEvent.missingCollection collection_name
  match denseModel, sparseModel, lateModel with
  | some d, some s, some l =>
    .ok ({ collection_name := collection_name,
           rerank_limit := Config.RERANK_LIMIT,
           prefetch_limit := Config.PREFETCH_LIMIT,
           dense_embedding_model := d,
           sparse_embedding_model := s,
           late_interaction_embedding_model := l }, [collLog])
  | _, _, _ => .error .modelUnavailable

/-- The filter construction of `HybridSearcher.search`: Python's
`if target_user_id:` is true only for a non-`None`, non-empty string, so an
empty string yields no filter, exactly like `None`. -/
def mkQueryFilter : Option String → Option QueryFilter
  | none => none
  | some s =>
    if s = "" then none
    else some { key := Config.PAYLOAD_INDEX_FIELD, value := s }

/-- The body of `HybridSearcher.search` up to (and including) assembling the
arguments of the single `query_points` call: embed the query with all three
models in order (any failure raises `EmbeddingFailed`), build the optional
tenant filter, build the two prefetch entries, and pair them with the
late-interaction fused query. -/
def HybridSearcher.buildRequest (self : HybridSearcher) (query_text : String)
    (target_user_id : Option String) : Except EmbError QueryPointsRequest :=
  match self.dense_embedding_model query_text with
  | none => .error .embeddingFailed
  | some dense_query_vector =>
    match self.sparse_embedding_model query_text with
    | none => .error .embeddingFailed
    | some sparse_query_vector =>
      match self.late_interaction_embedding_model query_text with
      | none => .error .embeddingFailed
      | some late_query_vector =>
        let query_filter := mkQueryFilter target_user_id
        .ok { collection_name := self.collection_name,
              prefetch :=
                [{ query := .dense dense_query_vector,
                   usingName := Config.DENSE_VECTOR_NAME,
                   limit := self.prefetch_limit,
                   filter := query_filter },
                 { query := .sparse sparse_query_vector,
                   usingName := Config.SPARSE_VECTOR_NAME,
                   limit := self.prefetch_limit,
                   filter := query_filter }],
              query := late_query_vector,
              usingName := Config.LATE_INTERACTION_VECTOR_NAME,
              limit := self.rerank_limit,
              with_payload := ["title", "user_id", "text"],
              with_vectors := false }

/-- `HybridSearcher.search`: perform the single `query_points` call described
by `buildRequest` against the storage engine and return its points. -/
def HybridSearcher.search (self : HybridSearcher)
    (engine : QueryPointsRequest → List ScoredPoint)
    (query_text : String) (target_user_id : Option String) :
    Except EmbError (List ScoredPoint) :=
  (self.buildRequest query_text target_user_id).map engine

/-! ## HTTP facade (`service.py`) -/

/-- A service response: formatted results or an `HTTPException` with a
status code (detail messages abbreviated from the source). -/
inductive ServiceResponse where
  | ok (results : List ScoredPoint)
  | httpError (status : Nat) (detail : String)
  deriving DecidableEq

/-- Module-level searcher initialization of `service.py`: the constructor is
wrapped in `try/except`, any failure leaving the module-global `searcher`
as `None`. -/
def initService (collectionExists : Bool)
    (denseModel : Option (String → Option DenseVec))
    (sparseModel : Option (String → Option SparseVec))
    (lateModel : Option (String → Option MultiVec)) : Option HybridSearcher :=
  match HybridSearcher.init Config.COLLECTION_NAME collectionExists
      denseModel sparseModel lateModel with
  | .ok (s, _) => some s
  | .error _ => none

/-- `service.py` `search_documents`: 503 when the searcher failed to
initialize, 400 when the query string is empty (checked before calling
`search`, hence before any embedding or network call), 500 when `search`
raises; otherwise the formatted results. -/
def search_documents (searcher : Option HybridSearcher)
    (engine : QueryPointsRequest → List ScoredPoint)
    (query : String) (user_id : Option String) : ServiceResponse :=
  match searcher with
  | none =>
    .httpError 503 "search service not available due to initialization error"
  | some s =>
    if query = "" then
      .httpError 400 "query parameter cannot be empty"
    else
      match s.search engine query user_id with
      | .error _ => .httpError 500 "an internal error occurred during search"
      | .ok pts => .ok pts

/-- A health-endpoint response. -/
inductive HealthResponse where
  | healthy
  | unavailable (status : Nat) (detail : String)
  deriving DecidableEq

/-- `service.py` `health_check`: 503 if the searcher is not initialized,
otherwise a cheap `get_collections` liveness call against the engine
(`getCollectionsOk` is whether it succeeds); no embedding model is
invoked. -/
def health_check (searcher : Option HybridSearcher)
    (getCollectionsOk : Bool) : HealthResponse :=
  match searcher with
  | none => .unavailable 503 "searcher not initialized"
  | some _ =>
    if getCollectionsOk then .healthy
    else .unavailable 503 "qdrant connection error"

/-! ## Concrete instances used by witness theorems -/

/-- A constant dense passage-embedding model. -/
def passageDenseEmb : String → DenseVec := fun _ => []

/-- A constant sparse passage-embedding model. -/
def passageSparseEmb : String → SparseVec := fun _ => []

/-- A concrete source item with a well-formed key. -/
def itemExample : SourceItem := { key := "doc0", title := "a", text := "b" }

/-- The point the upload loop builds for `itemExample` at ordinal `0` of a
10-document corpus. -/
def pointExample : PointStruct :=
  { id := 0,
    vector := [(Config.DENSE_VECTOR_NAME, .dense []),
               (Config.SPARSE_VECTOR_NAME, .sparse [])],
    payload := [("_id", "doc0"), ("user_id", "user_0"),
                ("title", "a"), ("text", "b")] }

/-- The operation trace of an indexing run over the single batch
`[itemExample]`. -/
def c5OpsExample : List EngineOp :=
  [.upsertBatch [pointExample],
   .createPayloadIndex Config.PAYLOAD_INDEX_FIELD "keyword",
   .updateCollection [(Config.DENSE_VECTOR_NAME, 16)]]

/-- A constant dense query-embedding model that always succeeds. -/
def embDense1 : String → Option DenseVec := fun _ => some [1]

/-- A constant sparse query-embedding model that always succeeds. -/
def embSparse1 : String → Option SparseVec := fun _ => some [(0, 1)]

/-- A constant late-interaction query-embedding model that always
succeeds. -/
def embLate1 : String → Option MultiVec := fun _ => some [[1]]

/-- A late-interaction query-embedding model that always fails. -/
def embLateNone : String → Option MultiVec := fun _ => none

/-- A storage engine returning no points. -/
def engineEmpty : QueryPointsRequest → List ScoredPoint := fun _ => []

/-- The searcher `HybridSearcher.init` builds from the three embedding
models when all three initialize. -/
def initializedSearcher (d : String → Option DenseVec)
    (s : String → Option SparseVec) (l : String → Option MultiVec) :
    HybridSearcher :=
  { collection_name := Config.COLLECTION_NAME,
    rerank_limit := Config.RERANK_LIMIT,
    prefetch_limit := Config.PREFETCH_LIMIT,
    dense_embedding_model := d,
    sparse_embedding_model := s,
    late_interaction_embedding_model := l }

/-- A fully functional searcher instance. -/
def searcherExample : HybridSearcher :=
  initializedSearcher embDense1 embSparse1 embLate1

/-- A searcher whose late-interaction model fails on every input while the
dense and sparse models succeed. -/
def searcherLateFailExample : HybridSearcher :=
  initializedSearcher embDense1 embSparse1 embLateNone

/-- The request `searcherExample` builds for query `"hello"` filtered to
tenant `"user_5"`. -/
def reqExample5 : QueryPointsRequest :=
  { collection_name := Config.COLLECTION_NAME,
    prefetch :=
      [{ query := .dense [1], usingName := Config.DENSE_VECTOR_NAME,
         limit := Config.PREFETCH_LIMIT,
         filter := some { key := Config.PAYLOAD_INDEX_FIELD,
                          value := "user_5" } },
       { query := .sparse [(0, 1)], usingName := Config.SPARSE_VECTOR_NAME,
         limit := Config.PREFETCH_LIMIT,
         filter := some { key := Config.PAYLOAD_INDEX_FIELD,
                          value := "user_5" } }],
    query := [[1]],
    usingName := Config.LATE_INTERACTION_VECTOR_NAME,
    limit := Config.RERANK_LIMIT,
    with_payload := ["title", "user_id", "text"],
    with_vectors := false }

/-- The HTTP status code of a service response, when it is an error. -/
def responseStatus : ServiceResponse → Option Nat
  | .ok _ => none
  | .httpError st _ => some st

/-! ## Helper lemmas -/

theorem mem_dropWhile_or (p : Char → Bool) :
    ∀ (cs : List Char) (c : Char), c ∈ cs →
      c ∈ cs.dropWhile p ∨ p c = true := by
  intro cs
  induction cs with
  | nil => intro c hc; simp at hc
  | cons a tl ih =>
    intro c hc
    by_cases hp : p a
    · rcases List.mem_cons.mp hc with rfl | hmem
      · right; exact hp
      · rcases ih c hmem with h | h
        · left; simpa [List.dropWhile_cons, hp] using h
        · right; exact h
    · left
      simpa [List.dropWhile_cons, hp] using hc

theorem mem_pyStripWs_or (cs : List Char) (c : Char) (hc : c ∈ cs) :
    c ∈ pyStripWs cs ∨ pyIsSpace c = true := by
  rcases mem_dropWhile_or pyIsSpace cs c hc with h1 | h1
  · have h2 : c ∈ (cs.dropWhile pyIsSpace).reverse := List.mem_reverse.mpr h1
    rcases mem_dropWhile_or pyIsSpace _ c h2 with h3 | h3
    · left
      exact List.mem_reverse.mpr h3
    · right; exact h3
  · right; exact h1

theorem isDigit_pyIsSpace_false (c : Char) (h : c.isDigit = true) :
    pyIsSpace c = false := by
  cases hps : pyIsSpace c
  · rfl
  · exfalso
    have hmem : c ∈ pyWhitespaceChars := by
      have h2 := hps
      simp only [pyIsSpace, decide_eq_true_eq] at h2
      exact h2
    fin_cases hmem <;> exact absurd h (by decide)

theorem pyStripWs_digits (ds : List Char) (h : ∀ c ∈ ds, c.isDigit) :
    pyStripWs ds = ds := by
  have hdrop : ∀ (l : List Char), (∀ c ∈ l, c.isDigit) →
      l.dropWhile pyIsSpace = l := by
    intro l hl
    cases l with
    | nil => rfl
    | cons a tl =>
      have ha : pyIsSpace a = false :=
        isDigit_pyIsSpace_false a (hl a (by simp))
      simp [List.dropWhile_cons, ha]
  rw [pyStripWs, hdrop ds h,
    hdrop ds.reverse (fun c hc => h c (List.mem_reverse.mp hc)),
    List.reverse_reverse]

theorem parseDigitsUAux_chars :
    ∀ (fuel : Nat) (cs : List Char), cs.length ≤ fuel →
      ∀ (acc n : Nat), parseDigitsUAux acc cs = some n →
      ∀ c ∈ cs, c.isDigit ∨ c = '_' := by
  intro fuel
  induction fuel with
  | zero =>
    intro cs hlen _ _ _ c hc
    have : cs = [] := List.eq_nil_of_length_eq_zero (by omega)
    subst this
    simp at hc
  | succ m ih =>
    intro cs hlen acc n h c hc
    match cs with
    | [] => simp at hc
    | [a] =>
      simp only [parseDigitsUAux] at h
      by_cases ha : a.isDigit
      · rcases List.mem_cons.mp hc with rfl | hmem
        · left; exact ha
        · simp at hmem
      · rw [if_neg ha] at h
        cases h
    | a :: d :: rest =>
      simp only [parseDigitsUAux] at h
      by_cases ha : a.isDigit
      · rw [if_pos ha] at h
        rcases List.mem_cons.mp hc with rfl | hmem
        · left; exact ha
        · exact ih (d :: rest) (by simp at hlen ⊢; omega) _ n h c hmem
      · rw [if_neg ha] at h
        by_cases hud : a = '_' ∧ d.isDigit
        · rw [if_pos hud] at h
          rcases List.mem_cons.mp hc with rfl | hmem
          · right; exact hud.1
          · rcases List.mem_cons.mp hmem with rfl | hmem2
            · left; exact hud.2
            · exact ih rest (by simp at hlen ⊢; omega) _ n h c hmem2
        · rw [if_neg hud] at h
          cases h

theorem parseDigitsU_chars (cs : List Char) (m : Nat)
    (h : parseDigitsU cs = some m) :
    ∀ c ∈ cs, c.isDigit ∨ c = '_' := by
  cases cs with
  | nil => intro c hc; simp at hc
  | cons a tl =>
    intro c hc
    simp only [parseDigitsU] at h
    by_cases ha : a.isDigit
    · rw [if_pos ha] at h
      rcases List.mem_cons.mp hc with rfl | hmem
      · left; exact ha
      · exact parseDigitsUAux_chars tl.length tl (le_refl _) _ m h c hmem
    · rw [if_neg ha] at h
      cases h

theorem parseDigitsUAux_isSome_of_digits :
    ∀ (cs : List Char), (∀ c ∈ cs, c.isDigit) →
      ∀ acc, (parseDigitsUAux acc cs).isSome := by
  intro cs
  induction cs with
  | nil => intro _ acc; simp [parseDigitsUAux]
  | cons a tl ih =>
    intro h acc
    have ha : a.isDigit := h a (by simp)
    cases tl with
    | nil => simp [parseDigitsUAux, ha]
    | cons d rest =>
      simp only [parseDigitsUAux, if_pos ha]
      exact ih (fun c hc => h c (List.mem_cons_of_mem _ hc)) _

theorem pyInt_chars (cs : List Char) (n : Int) (h : pyInt cs = some n) :
    ∀ c ∈ cs, pyIntRejectedChar c = false := by
  intro c hc
  rcases mem_pyStripWs_or cs c hc with hmem | hsp
  · rw [pyInt] at h
    rcases hst : pyStripWs cs with _ | ⟨c0, rest⟩
    · rw [hst] at hmem
      simp at hmem
    · rw [hst] at hmem h
      simp only [pyIntCore] at h
      by_cases h1 : c0 = '-'
      · rw [if_pos h1] at h
        rcases List.mem_cons.mp hmem with rfl | hmem2
        · rw [h1]; decide
        · rcases hm : parseDigitsU rest with _ | m
          · rw [hm] at h; simp at h
          · rcases parseDigitsU_chars rest m hm c hmem2 with hd | hu
            · simp [pyIntRejectedChar, hd]
            · rw [hu]; decide
      · rw [if_neg h1] at h
        by_cases h2 : c0 = '+'
        · rw [if_pos h2] at h
          rcases List.mem_cons.mp hmem with rfl | hmem2
          · rw [h2]; decide
          · rcases hm : parseDigitsU rest with _ | m
            · rw [hm] at h; simp at h
            · rcases parseDigitsU_chars rest m hm c hmem2 with hd | hu
              · simp [pyIntRejectedChar, hd]
              · rw [hu]; decide
        · rw [if_neg h2] at h
          rcases hm : parseDigitsU (c0 :: rest) with _ | m
          · rw [hm] at h; simp at h
          · rcases parseDigitsU_chars (c0 :: rest) m hm c hmem with hd | hu
            · simp [pyIntRejectedChar, hd]
            · rw [hu]; decide
  · simp [pyIntRejectedChar, hsp]

theorem stripDocAll_digits :
    ∀ (fuel : Nat) (cs : List Char), cs.length ≤ fuel →
      (∀ c ∈ cs, c.isDigit) → stripDocAll cs = cs := by
  intro fuel
  induction fuel with
  | zero =>
    intro cs hlen _
    have : cs = [] := List.eq_nil_of_length_eq_zero (by omega)
    rw [this]; rfl
  | succ m ih =>
    intro cs hlen h
    match cs with
    | [] => rfl
    | [c] => rfl
    | [c1, c2] => rfl
    | c1 :: c2 :: c3 :: rest =>
      have hc1 : c1.isDigit := h c1 (by simp)
      have hne : ¬(c1 = 'd' ∧ c2 = 'o' ∧ c3 = 'c') := by
        rintro ⟨h1, _, _⟩
        rw [h1] at hc1
        exact absurd hc1 (by decide)
      simp only [stripDocAll, if_neg hne]
      have hlen' : (c2 :: c3 :: rest).length ≤ m := by
        simp at hlen ⊢; omega
      rw [ih (c2 :: c3 :: rest) hlen'
        (fun c hc => h c (List.mem_cons_of_mem _ hc))]

theorem mkPoint_none_of_doc_id (dEmb : String → DenseVec)
    (sEmb : String → SparseVec) (L g : Nat) (item : SourceItem)
    (h : doc_id item.key = none) :
    mkPoint dEmb sEmb L g item = none := by
  simp only [mkPoint, h]
  rcases user_id_num L Config.NUM_USERS g with _ | u <;> rfl

theorem batchPoints_none (dEmb : String → DenseVec)
    (sEmb : String → SparseVec) (L : Nat) (item : SourceItem) :
    ∀ (batch : List SourceItem) (g : Nat), item ∈ batch →
      doc_id item.key = none →
      batchPoints dEmb sEmb L g batch = none := by
  intro batch
  induction batch with
  | nil => intro g hmem _; simp at hmem
  | cons b0 rest ih =>
    intro g hmem hid
    rcases List.mem_cons.mp hmem with heq | hmem'
    · have : mkPoint dEmb sEmb L g b0 = none := by
        subst heq
        exact mkPoint_none_of_doc_id dEmb sEmb L g item hid
      simp [batchPoints, this]
    · rcases hp : mkPoint dEmb sEmb L g b0 with _ | p
      · simp [batchPoints, hp]
      · simp [batchPoints, hp, ih (g + 1) hmem' hid]

theorem indexLoop_none (dEmb : String → DenseVec)
    (sEmb : String → SparseVec) (L : Nat) (item : SourceItem)
    (batch : List SourceItem) :
    ∀ (batches : List (List SourceItem)) (processed : Nat),
      batch ∈ batches → item ∈ batch → doc_id item.key = none →
      indexLoop dEmb sEmb L processed batches = none := by
  intro batches
  induction batches with
  | nil => intro processed hmem _ _; simp at hmem
  | cons b0 rest ih =>
    intro processed hmem hitem hid
    rcases List.mem_cons.mp hmem with heq | hmem'
    · have : batchPoints dEmb sEmb L processed b0 = none := by
        subst heq
        exact batchPoints_none dEmb sEmb L item batch processed hitem hid
      simp [indexLoop, this]
    · rcases hp : batchPoints dEmb sEmb L processed b0 with _ | pts
      · simp [indexLoop, hp]
      · simp [indexLoop, hp, ih (processed + b0.length) hmem' hitem hid]

/-! ## Claim C6 -/

/-- Claim C6 (amended): the document identifier is derived by removing
*every* occurrence of the substring `"doc"` from the source item key (not
only a prefix) and parsing the remainder with Python `int(...)` semantics
(optional surrounding whitespace, optional sign, decimal digits with
underscore grouping); a remainder containing any other ASCII character —
one `int(...)` can never accept — is a fatal parse error that aborts the
run.  On well-formed keys — `"doc"` followed only by digits — this agrees
with the spec's prefix-stripping description. -/
theorem C6_doc_id_derivation :
    (∀ key : String,
      (∃ c ∈ stripDocAll key.data, pyIntRejectedChar c = true) →
      doc_id key = none) ∧
    (∀ ds : List Char, ds ≠ [] → (∀ c ∈ ds, c.isDigit) →
      doc_id (String.mk ('d' :: 'o' :: 'c' :: ds)) = pyInt ds ∧
      (pyInt ds).isSome ∧
      doc_id_spec (String.mk ('d' :: 'o' :: 'c' :: ds)) = pyInt ds) ∧
    (∀ (dEmb : String → DenseVec) (sEmb : String → SparseVec) (L : Nat)
      (batches : List (List SourceItem)) (batch : List SourceItem)
      (item : SourceItem), batch ∈ batches → item ∈ batch →
      doc_id item.key = none →
      indexRun dEmb sEmb L batches = none) := by
  refine ⟨?_, ?_, ?_⟩
  · intro key hbad
    rcases hbad with ⟨c, hmem, hrej⟩
    rcases hv : doc_id key with _ | n
    · rfl
    · have hgood := pyInt_chars _ n hv c hmem
      rw [hgood] at hrej
      cases hrej
  · intro ds hne hdig
    have hstrip : stripDocAll ('d' :: 'o' :: 'c' :: ds) = ds := by
      have h4 : stripDocAll ('d' :: 'o' :: 'c' :: ds) = stripDocAll ds := by
        simp [stripDocAll]
      rw [h4, stripDocAll_digits ds.length ds (le_refl _) hdig]
    refine ⟨?_, ?_, ?_⟩
    · simp only [doc_id, String.mk]
      rw [hstrip]
    · have hsw : pyStripWs ds = ds := pyStripWs_digits ds hdig
      match ds, hne, hdig, hsw with
      | d0 :: drest, _, hdig, hsw =>
        have hd0 : d0.isDigit := hdig d0 (by simp)
        have hm : d0 ≠ '-' := by
          intro h; rw [h] at hd0; exact absurd hd0 (by decide)
        have hp : d0 ≠ '+' := by
          intro h; rw [h] at hd0; exact absurd hd0 (by decide)
        rw [pyInt, hsw]
        simp only [pyIntCore, if_neg hm, if_neg hp, parseDigitsU,
          if_pos hd0]
        have haux := parseDigitsUAux_isSome_of_digits drest
          (fun c hc => hdig c (List.mem_cons_of_mem _ hc)) (d0.toNat - 48)
        rcases hq : parseDigitsUAux (d0.toNat - 48) drest with _ | m
        · rw [hq] at haux
          simp at haux
        · simp
    · simp only [doc_id_spec, String.mk]
  · intro dEmb sEmb L batches batch item hb hi hid
    simp [indexRun, indexLoop_none dEmb sEmb L item batch batches 0 hb hi hid]

/-- Witness for C6: the key `"docx"` leaves the remainder `"x"`, whose
letter `int(...)` never accepts (fatal); the well-formed key `"doc42"`
parses via the digit remainder `"42"`; and the faithful `int(...)` model
accepts the whitespace and underscore forms `"doc 12"` and `"doc1_2"`,
both yielding identifier `12`. -/
theorem C6_witness :
    doc_id "docx" = none ∧
    doc_id (String.mk ['d', 'o', 'c', '4', '2']) = pyInt ['4', '2'] ∧
    doc_id (String.mk ['d', 'o', 'c', ' ', '1', '2']) = some 12 ∧
    doc_id (String.mk ['d', 'o', 'c', '1', '_', '2']) = some 12 :=
  ⟨C6_doc_id_derivation.1 "docx" (by decide),
   (C6_doc_id_derivation.2.1 ['4', '2'] (by decide) (by decide)).1,
   by decide, by decide⟩

/-- Counterexample to C6 as stated: the key `"1doc2"` has no `"doc"` prefix,
so prefix-stripping leaves `"1doc2"`, which is non-numeric and per the claim
must be a fatal parse error; the code instead removes the interior `"doc"`
and produces identifier `12`. -/
theorem C6_counterexample :
    doc_id "1doc2" = some 12 ∧ doc_id_spec "1doc2" = none ∧
    doc_id "1doc2" ≠ doc_id_spec "1doc2" := by decide

/-! ## Claim C2 -/

theorem user_id_num_eval (L N i : Nat) (hN : N ≠ 0) (hd : L / N ≠ 0) :
    user_id_num L N i = some (min (i / (L / N)) (N - 1)) := by
  simp [user_id_num, docs_per_user, pyFloorDiv, hN, hd]

/-- Claim C2 (amended): for every corpus size `L` and tenant count `N` with
`1 ≤ N ≤ L`, the tenant partition is a pure deterministic function of the
global ordinal, `L` and `N`; it is total on all ordinals (in particular on
`[0, L)`), assigns each ordinal exactly one tenant in `[0, N)`, and divides
the ordinals into `N` contiguous blocks: tenant `t < N - 1` owns exactly the
interval `[d*t, d*(t+1))` with `d = L / N`, and the last tenant `N - 1` owns
everything from `d*(N-1)` on (so the last block `[d*(N-1), L)` absorbs the
remainder).  When `0 < L < N` the code instead raises `ZeroDivisionError`
(block size `L // N` is zero), hence the added hypothesis `N ≤ L`. -/
theorem C2_tenant_partition_blocks (L N : Nat) (hN : 1 ≤ N) (hNL : N ≤ L) :
    (∀ i, i < L → ∃ t, user_id_num L N i = some t ∧ t < N) ∧
    (∀ i t t', user_id_num L N i = some t → user_id_num L N i = some t' →
      t = t') ∧
    (∀ i t, user_id_num L N i = some t ↔
      ((t + 1 < N ∧ (L / N) * t ≤ i ∧ i < (L / N) * (t + 1)) ∨
       (t = N - 1 ∧ (L / N) * (N - 1) ≤ i))) := by
  have hN0 : N ≠ 0 := by omega
  have hdpos : 0 < L / N := Nat.div_pos hNL (by omega)
  have hd0 : L / N ≠ 0 := by omega
  refine ⟨?_, ?_, ?_⟩
  · intro i _
    refine ⟨min (i / (L / N)) (N - 1), user_id_num_eval L N i hN0 hd0, ?_⟩
    have : min (i / (L / N)) (N - 1) ≤ N - 1 := Nat.min_le_right _ _
    omega
  · intro i t t' h1 h2
    rw [user_id_num_eval L N i hN0 hd0] at h1 h2
    have e1 := Option.some.inj h1
    have e2 := Option.some.inj h2
    omega
  · intro i t
    rw [user_id_num_eval L N i hN0 hd0]
    set d := L / N with hdset
    have hq := Nat.div_add_mod i d
    have hr : i % d < d := Nat.mod_lt _ hdpos
    constructor
    · intro h
      have ht : min (i / d) (N - 1) = t := Option.some.inj h
      rcases Nat.lt_or_ge (i / d) (N - 1) with hlt | hge
      · left
        have hmin : min (i / d) (N - 1) = i / d := Nat.min_eq_left (le_of_lt hlt)
        have htq : t = i / d := by omega
        have hmul : d * (i / d + 1) = d * (i / d) + d := by ring
        subst htq
        refine ⟨by omega, by omega, by omega⟩
      · right
        have hmin : min (i / d) (N - 1) = N - 1 := Nat.min_eq_right hge
        have hle : d * (N - 1) ≤ d * (i / d) := Nat.mul_le_mul_left d hge
        exact ⟨by omega, by omega⟩
    · intro h
      rcases h with ⟨htN, hlo, hhi⟩ | ⟨htN, hlo⟩
      · have hdiv : i / d = t := by
          have hc1 : t * d = d * t := Nat.mul_comm t d
          have hc2 : (t + 1) * d = d * (t + 1) := Nat.mul_comm (t + 1) d
          have h1 : t ≤ i / d := by
            rw [Nat.le_div_iff_mul_le hdpos]
            omega
          have h2 : i / d < t + 1 := by
            rw [Nat.div_lt_iff_lt_mul hdpos]
            omega
          omega
        have hmin : min (i / d) (N - 1) = t := by
          rw [hdiv]
          exact Nat.min_eq_left (by omega)
        rw [hmin]
      · have h1 : N - 1 ≤ i / d := by
          have hc1 : (N - 1) * d = d * (N - 1) := Nat.mul_comm (N - 1) d
          rw [Nat.le_div_iff_mul_le hdpos]
          omega
        have hmin : min (i / d) (N - 1) = N - 1 := Nat.min_eq_right h1
        rw [hmin, htN]

/-- Witness for C2 at `L = 10`, `N = 3` (block size `d = 3`; blocks
`[0,3)`, `[3,6)` and `[6,10)`, the last absorbing the remainder). -/
theorem C2_tenant_partition_blocks_witness :
    1 ≤ 3 ∧ 3 ≤ 10 ∧
    ((∀ i, i < 10 → ∃ t, user_id_num 10 3 i = some t ∧ t < 3) ∧
     (∀ i t t', user_id_num 10 3 i = some t → user_id_num 10 3 i = some t' →
       t = t') ∧
     (∀ i t, user_id_num 10 3 i = some t ↔
       ((t + 1 < 3 ∧ (10 / 3) * t ≤ i ∧ i < (10 / 3) * (t + 1)) ∨
        (t = 3 - 1 ∧ (10 / 3) * (3 - 1) ≤ i)))) :=
  ⟨by decide, by decide,
    C2_tenant_partition_blocks 10 3 (by decide) (by decide)⟩

/-- Counterexample to C2 as stated: with corpus size `L = 1` and tenant count
`N = 2`, the block size `1 // 2` is zero, so the partition of ordinal `0`
raises `ZeroDivisionError` instead of assigning a tenant — the claim's
universal quantification over all `L` and `N` fails. -/
theorem C2_counterexample :
    0 < 1 ∧ user_id_num 1 2 0 = none := by decide

/-! ## Claim C3 -/

/-- Claim C3 (amended): every uploaded point carries vectors in exactly the
dense and sparse spaces — a strict subset of the spaces the schema declares.
The multivector (late-interaction) space is declared by the collection schema
and queried at rerank time, but it is intentionally not populated during bulk
load, so no indexed document carries a vector in it. -/
theorem C3_uploaded_points_dense_sparse_only
    (dEmb : String → DenseVec) (sEmb : String → SparseVec)
    (L g : Nat) (item : SourceItem) (p : PointStruct)
    (h : mkPoint dEmb sEmb L g item = some p) :
    p.vector.map Prod.fst =
      [Config.DENSE_VECTOR_NAME, Config.SPARSE_VECTOR_NAME] ∧
    (∀ n ∈ p.vector.map Prod.fst,
      n ∈ schemaSpaceNames createCollectionSchema) ∧
    Config.LATE_INTERACTION_VECTOR_NAME ∈
      schemaSpaceNames createCollectionSchema ∧
    Config.LATE_INTERACTION_VECTOR_NAME ∉ p.vector.map Prod.fst := by
  rcases hu : user_id_num L Config.NUM_USERS g with _ | uid
  · simp [mkPoint, hu] at h
  · rcases hd : doc_id item.key with _ | i
    · simp [mkPoint, hu, hd] at h
    · have hp : p =
          { id := i,
            vector := [(Config.DENSE_VECTOR_NAME, .dense (dEmb item.text)),
                       (Config.SPARSE_VECTOR_NAME, .sparse (sEmb item.text))],
            payload := [("_id", item.key),
                        ("user_id", "user_" ++ toString uid),
                        ("title", item.title),
                        ("text", item.text)] } := by
        have h2 : mkPoint dEmb sEmb L g item = some _ := h
        simp [mkPoint, hu, hd] at h2
        exact h2.symm
      have h1 : p.vector.map Prod.fst =
          [Config.DENSE_VECTOR_NAME, Config.SPARSE_VECTOR_NAME] := by
        rw [hp]
        rfl
      rw [h1]
      refine ⟨rfl, by decide, by decide, by decide⟩

/-- Witness for C3: the concrete point built for `itemExample`. -/
theorem C3_witness :
    mkPoint passageDenseEmb passageSparseEmb 10 0 itemExample =
      some pointExample ∧
    (pointExample.vector.map Prod.fst =
      [Config.DENSE_VECTOR_NAME, Config.SPARSE_VECTOR_NAME] ∧
    (∀ n ∈ pointExample.vector.map Prod.fst,
      n ∈ schemaSpaceNames createCollectionSchema) ∧
    Config.LATE_INTERACTION_VECTOR_NAME ∈
      schemaSpaceNames createCollectionSchema ∧
    Config.LATE_INTERACTION_VECTOR_NAME ∉
      pointExample.vector.map Prod.fst) :=
  ⟨by decide,
   C3_uploaded_points_dense_sparse_only passageDenseEmb passageSparseEmb
     10 0 itemExample pointExample (by decide)⟩

/-- Counterexample to C3 as stated: the concrete indexed point for
`itemExample` carries no vector in the multivector space the schema
declares, so it does not carry a vector in *exactly* the declared spaces
"including the multivector space". -/
theorem C3_counterexample :
    mkPoint passageDenseEmb passageSparseEmb 10 0 itemExample =
      some pointExample ∧
    Config.LATE_INTERACTION_VECTOR_NAME ∈
      schemaSpaceNames createCollectionSchema ∧
    Config.LATE_INTERACTION_VECTOR_NAME ∉
      pointExample.vector.map Prod.fst ∧
    pointExample.vector.map Prod.fst ≠
      schemaSpaceNames createCollectionSchema := by decide

/-! ## Claim C5 -/

theorem indexLoop_shape (dEmb : String → DenseVec)
    (sEmb : String → SparseVec) (L : Nat) :
    ∀ (batches : List (List SourceItem)) (g : Nat) (ups : List EngineOp),
      indexLoop dEmb sEmb L g batches = some ups →
      ups.length = batches.length ∧
      ∀ o ∈ ups, ∃ pts, o = EngineOp.upsertBatch pts := by
  intro batches
  induction batches with
  | nil =>
    intro g ups h
    simp only [indexLoop, Option.some.injEq] at h
    subst h
    exact ⟨rfl, by intro o ho; simp at ho⟩
  | cons b rest ih =>
    intro g ups h
    rcases hp : batchPoints dEmb sEmb L g b with _ | pts
    · rw [indexLoop, hp] at h
      simp at h
    · rw [indexLoop, hp] at h
      rcases hr : indexLoop dEmb sEmb L (g + b.length) rest with _ | ops2
      · rw [hr] at h
        simp at h
      · rw [hr] at h
        simp at h
        subst h
        obtain ⟨hlen, hall⟩ := ih (g + b.length) ops2 hr
        refine ⟨by simp [hlen], ?_⟩
        intro o ho
        rcases List.mem_cons.mp ho with heq | hmem
        · exact ⟨pts, heq⟩
        · exact hall o hmem

theorem foldl_upserts_frame :
    ∀ (ups : List EngineOp),
      (∀ o ∈ ups, ∃ pts, o = EngineOp.upsertBatch pts) →
      ∀ st : EngineState,
        (List.foldl applyEngineOp st ups).schema = st.schema ∧
        (List.foldl applyEngineOp st ups).payload_indexes =
          st.payload_indexes := by
  intro ups
  induction ups with
  | nil => intro _ st; exact ⟨rfl, rfl⟩
  | cons o rest ih =>
    intro h st
    obtain ⟨pts, hpts⟩ := h o (List.mem_cons_self o rest)
    subst hpts
    simp only [List.foldl_cons]
    have hres := ih (fun o2 ho2 => h o2 (List.mem_cons_of_mem _ ho2))
      (applyEngineOp st (.upsertBatch pts))
    refine ⟨?_, ?_⟩
    · rw [hres.1]; rfl
    · rw [hres.2]; rfl

theorem applyUpdate_finalize_eval :
    (applyUpdateCollection createCollectionSchema
        [(Config.DENSE_VECTOR_NAME, 16)]).vectors_config =
      [(Config.DENSE_VECTOR_NAME,
        .dense Config.DENSE_VECTOR_SIZE .cosine true 16),
       (Config.LATE_INTERACTION_VECTOR_NAME,
        .multivector Config.LATE_INTERACTION_VECTOR_SIZE .cosine
          .MAX_SIM 0)] ∧
    (applyUpdateCollection createCollectionSchema
        [(Config.DENSE_VECTOR_NAME, 16)]).sparse_vectors_config =
      createCollectionSchema.sparse_vectors_config := by decide

/-- Claim C5: the finalize phase runs only after every batch upsert — the
operation trace is exactly the batch upserts followed by
`create_payload_index(user_id, keyword)` and then `update_collection`
raising the dense space's HNSW `m` to `16`; applying the trace to a
collection in its creation-time schema leaves the multivector space's
config (HNSW `m = 0`) and the sparse space's config unchanged, while the
dense space's `m` becomes `16`. -/
theorem C5_finalize_after_all_batches (dEmb : String → DenseVec)
    (sEmb : String → SparseVec) (L : Nat)
    (batches : List (List SourceItem)) (ops : List EngineOp)
    (h : indexRun dEmb sEmb L batches = some ops) :
    ∃ ups,
      ops = ups ++
        [EngineOp.createPayloadIndex Config.PAYLOAD_INDEX_FIELD "keyword",
         EngineOp.updateCollection [(Config.DENSE_VECTOR_NAME, 16)]] ∧
      ups.length = batches.length ∧
      (∀ o ∈ ups, ∃ pts, o = EngineOp.upsertBatch pts) ∧
      ∀ (pidx : List (String × String)) (pts0 : List PointStruct),
        (List.foldl applyEngineOp
            ⟨createCollectionSchema, pidx, pts0⟩ ops).schema.vectors_config =
          [(Config.DENSE_VECTOR_NAME,
            .dense Config.DENSE_VECTOR_SIZE .cosine true 16),
           (Config.LATE_INTERACTION_VECTOR_NAME,
            .multivector Config.LATE_INTERACTION_VECTOR_SIZE .cosine
              .MAX_SIM 0)] ∧
        (List.foldl applyEngineOp
            ⟨createCollectionSchema, pidx, pts0⟩
            ops).schema.sparse_vectors_config =
          createCollectionSchema.sparse_vectors_config ∧
        (List.foldl applyEngineOp
            ⟨createCollectionSchema, pidx, pts0⟩ ops).payload_indexes =
          pidx ++ [(Config.PAYLOAD_INDEX_FIELD, "keyword")] := by
  rcases hl : indexLoop dEmb sEmb L 0 batches with _ | ups
  · rw [indexRun, hl] at h
    simp at h
  · rw [indexRun, hl] at h
    simp only [Option.map_some', Option.some.injEq] at h
    subst h
    obtain ⟨hlen, hups⟩ := indexLoop_shape dEmb sEmb L batches 0 ups hl
    refine ⟨ups, rfl, hlen, hups, ?_⟩
    intro pidx pts0
    rw [List.foldl_append]
    have hframe := foldl_upserts_frame ups hups
      ⟨createCollectionSchema, pidx, pts0⟩
    simp only [List.foldl_cons, List.foldl_nil, applyEngineOp]
    refine ⟨?_, ?_, ?_⟩
    · rw [hframe.1]
      exact applyUpdate_finalize_eval.1
    · rw [hframe.1]
      exact applyUpdate_finalize_eval.2
    · rw [hframe.2]

/-- Witness for C5: a run over the single batch `[itemExample]`. -/
theorem C5_witness :
    indexRun passageDenseEmb passageSparseEmb 10 [[itemExample]] =
      some c5OpsExample ∧
    ∃ ups,
      c5OpsExample = ups ++
        [EngineOp.createPayloadIndex Config.PAYLOAD_INDEX_FIELD "keyword",
         EngineOp.updateCollection [(Config.DENSE_VECTOR_NAME, 16)]] ∧
      ups.length = [[itemExample]].length ∧
      (∀ o ∈ ups, ∃ pts, o = EngineOp.upsertBatch pts) ∧
      ∀ (pidx : List (String × String)) (pts0 : List PointStruct),
        (List.foldl applyEngineOp
            ⟨createCollectionSchema, pidx, pts0⟩
            c5OpsExample).schema.vectors_config =
          [(Config.DENSE_VECTOR_NAME,
            .dense Config.DENSE_VECTOR_SIZE .cosine true 16),
           (Config.LATE_INTERACTION_VECTOR_NAME,
            .multivector Config.LATE_INTERACTION_VECTOR_SIZE .cosine
              .MAX_SIM 0)] ∧
        (List.foldl applyEngineOp
            ⟨createCollectionSchema, pidx, pts0⟩
            c5OpsExample).schema.sparse_vectors_config =
          createCollectionSchema.sparse_vectors_config ∧
        (List.foldl applyEngineOp
            ⟨createCollectionSchema, pidx, pts0⟩
            c5OpsExample).payload_indexes =
          pidx ++ [(Config.PAYLOAD_INDEX_FIELD, "keyword")] :=
  ⟨by decide,
   C5_finalize_after_all_batches passageDenseEmb passageSparseEmb 10
     [[itemExample]] c5OpsExample (by decide)⟩

/-! ## Claim C7 -/

/-- Claim C7: `EnsureCollection` is idempotent — it checks existence before
creating; on an existing collection it performs no mutating operation and
keeps the existing schema untouched, so a second run leaves the collection
exactly as one run does. -/
theorem C7_ensure_collection_idempotent :
    ∀ existing : Option CollectionSchema,
      (ensureCollection (ensureCollection existing).1).1 =
        (ensureCollection existing).1 ∧
      (ensureCollection (ensureCollection existing).1).2 = [] ∧
      ∀ sch : CollectionSchema,
        (ensureCollection (some sch)).1 = some sch ∧
        (ensureCollection (some sch)).2 = [] := by
  intro ex
  refine ⟨?_, ?_, fun sch => ⟨rfl, rfl⟩⟩ <;> cases ex <;> rfl

/-! ## Claim C1 -/

/-- Claim C1: for every search with query text and optional tenant id on a
searcher built by the constructor (so its limits are the configured ones),
the orchestrator submits exactly two prefetch candidate-retrievals — the
dense query vector against the dense space and the sparse query vector
against the sparse space, each with limit `PREFETCH_LIMIT` and both carrying
the same tenant filter — together with a single fused query using the query
multivector against the late-interaction space (whose schema comparator is
MaxSim, so the engine reranks the deduplicated union of the prefetch
candidates by MaxSim), truncated to `RERANK_LIMIT`. -/
theorem C1_two_prefetch_fused_rerank
    (name : String) (collectionExists : Bool)
    (d : String → Option DenseVec) (s : String → Option SparseVec)
    (l : String → Option MultiVec) (sr : HybridSearcher)
    (logs : List LogEvent)
    (hinit : HybridSearcher.init name collectionExists
      (some d) (some s) (some l) = .ok (sr, logs))
    (q : String) (uid : Option String)
    (dv : DenseVec) (sv : SparseVec) (lv : MultiVec)
    (hd : d q = some dv) (hs : s q = some sv) (hl : l q = some lv) :
    sr.buildRequest q uid = .ok
      { collection_name := name,
        prefetch :=
          [{ query := .dense dv, usingName := Config.DENSE_VECTOR_NAME,
             limit := Config.PREFETCH_LIMIT, filter := mkQueryFilter uid },
           { query := .sparse sv, usingName := Config.SPARSE_VECTOR_NAME,
             limit := Config.PREFETCH_LIMIT, filter := mkQueryFilter uid }],
        query := lv,
        usingName := Config.LATE_INTERACTION_VECTOR_NAME,
        limit := Config.RERANK_LIMIT,
        with_payload := ["title", "user_id", "text"],
        with_vectors := false } ∧
    List.lookup Config.LATE_INTERACTION_VECTOR_NAME
        createCollectionSchema.vectors_config =
      some (.multivector Config.LATE_INTERACTION_VECTOR_SIZE .cosine
        .MAX_SIM 0) := by
  simp only [HybridSearcher.init, Except.ok.injEq, Prod.mk.injEq] at hinit
  obtain ⟨hsr, _⟩ := hinit
  subst hsr
  refine ⟨?_, by decide⟩
  simp [HybridSearcher.buildRequest, hd, hs, hl]

/-- Witness for C1: the fully concrete searcher and query. -/
theorem C1_witness :
    HybridSearcher.init Config.COLLECTION_NAME true
      (some embDense1) (some embSparse1) (some embLate1) =
      .ok (searcherExample,
        [LogEvent.usingCollection Config.COLLECTION_NAME]) ∧
    embDense1 "hello" = some [1] ∧
    embSparse1 "hello" = some [(0, 1)] ∧
    embLate1 "hello" = some [[1]] ∧
    (searcherExample.buildRequest "hello" (some "user_5") = .ok
      { collection_name := Config.COLLECTION_NAME,
        prefetch :=
          [{ query := .dense [1], usingName := Config.DENSE_VECTOR_NAME,
             limit := Config.PREFETCH_LIMIT,
             filter := mkQueryFilter (some "user_5") },
           { query := .sparse [(0, 1)],
             usingName := Config.SPARSE_VECTOR_NAME,
             limit := Config.PREFETCH_LIMIT,
             filter := mkQueryFilter (some "user_5") }],
        query := [[1]],
        usingName := Config.LATE_INTERACTION_VECTOR_NAME,
        limit := Config.RERANK_LIMIT,
        with_payload := ["title", "user_id", "text"],
        with_vectors := false } ∧
    List.lookup Config.LATE_INTERACTION_VECTOR_NAME
        createCollectionSchema.vectors_config =
      some (.multivector Config.LATE_INTERACTION_VECTOR_SIZE .cosine
        .MAX_SIM 0)) :=
  ⟨rfl, rfl, rfl, rfl,
   C1_two_prefetch_fused_rerank Config.COLLECTION_NAME true
     embDense1 embSparse1 embLate1 searcherExample
     [LogEvent.usingCollection Config.COLLECTION_NAME] rfl
     "hello" (some "user_5") [1] [(0, 1)] [[1]] rfl rfl rfl⟩

/-! ## Claim C4 -/

/-- Claim C4: for the empty query string the service fails with HTTP 400 (a
4xx-class client error).  The response is the same for *every* searcher
(hence every triple of embedding models) and every storage engine, which is
the shallow-embedding statement that no embedding computation and no
network call influences — or is needed for — the outcome. -/
theorem C4_empty_query_rejected_400 (sr : HybridSearcher)
    (engine : QueryPointsRequest → List ScoredPoint)
    (user_id : Option String) :
    search_documents (some sr) engine "" user_id =
      .httpError 400 "query parameter cannot be empty" := by
  simp [search_documents]

/-! ## Claim C8 -/

/-- Claim C8 (amended): if the late-interaction embedding fails while dense
and sparse succeed, `search` raises `EmbeddingFailed` and the service
surfaces HTTP 500 (internal server error) — not partial dense/sparse-only
results.  (The spec's §7 wording "service-unavailable", i.e. 503, does not
match the query path: 503 is returned only when the searcher failed to
initialize.) -/
theorem C8_embedding_failure_fails_search
    (name : String) (collectionExists : Bool)
    (d : String → Option DenseVec) (s : String → Option SparseVec)
    (l : String → Option MultiVec) (sr : HybridSearcher)
    (logs : List LogEvent)
    (hinit : HybridSearcher.init name collectionExists
      (some d) (some s) (some l) = .ok (sr, logs))
    (engine : QueryPointsRequest → List ScoredPoint)
    (q : String) (uid : Option String) (dv : DenseVec) (sv : SparseVec)
    (hq : q ≠ "") (hd : d q = some dv) (hs : s q = some sv)
    (hl : l q = none) :
    sr.search engine q uid = .error .embeddingFailed ∧
    search_documents (some sr) engine q uid =
      .httpError 500 "an internal error occurred during search" := by
  simp only [HybridSearcher.init, Except.ok.injEq, Prod.mk.injEq] at hinit
  obtain ⟨hsr, _⟩ := hinit
  subst hsr
  have hsearch : HybridSearcher.search
      { collection_name := name,
        rerank_limit := Config.RERANK_LIMIT,
        prefetch_limit := Config.PREFETCH_LIMIT,
        dense_embedding_model := d,
        sparse_embedding_model := s,
        late_interaction_embedding_model := l }
      engine q uid = .error .embeddingFailed := by
    simp [HybridSearcher.search, HybridSearcher.buildRequest, hd, hs, hl,
      Except.map]
  refine ⟨hsearch, ?_⟩
  simp [search_documents, hq, hsearch]

/-- Witness for C8: a concrete searcher whose late-interaction model fails
on every input. -/
theorem C8_witness :
    searcherLateFailExample.search engineEmpty "hello" none =
      .error .embeddingFailed ∧
    search_documents (some searcherLateFailExample) engineEmpty "hello"
      none = .httpError 500 "an internal error occurred during search" :=
  C8_embedding_failure_fails_search Config.COLLECTION_NAME false
    embDense1 embSparse1 embLateNone searcherLateFailExample
    [LogEvent.missingCollection Config.COLLECTION_NAME] rfl
    engineEmpty "hello" none [1] [(0, 1)] (by decide) rfl rfl rfl

/-- Counterexample to C8 as stated: at the concrete failing query the
surfaced status is 500 (internal server error), not the 503
"service unavailable" status the claim (via the spec's error taxonomy)
asserts for the query path. -/
theorem C8_counterexample :
    responseStatus (search_documents (some searcherLateFailExample)
      engineEmpty "hello" none) = some 500 ∧
    (500 : Nat) ≠ 503 := by decide

/-! ## Claim C9 -/

/-- Claim C9: constructing a `HybridSearcher` for a collection that does not
exist does not raise — the constructor only logs the missing collection and
returns the searcher (provided the embedding models initialize), so the
service initializes, the health endpoint reports healthy, and a subsequent
search builds its query against the nonexistent collection. -/
theorem C9_missing_collection_nonfatal
    (d : String → Option DenseVec) (s : String → Option SparseVec)
    (l : String → Option MultiVec) (q : String) (uid : Option String)
    (dv : DenseVec) (sv : SparseVec) (lv : MultiVec)
    (hd : d q = some dv) (hs : s q = some sv) (hl : l q = some lv) :
    HybridSearcher.init Config.COLLECTION_NAME false
      (some d) (some s) (some l) =
      .ok (initializedSearcher d s l,
        [LogEvent.missingCollection Config.COLLECTION_NAME]) ∧
    initService false (some d) (some s) (some l) =
      some (initializedSearcher d s l) ∧
    health_check (initService false (some d) (some s) (some l)) true =
      .healthy ∧
    (initializedSearcher d s l).buildRequest q uid = .ok
      { collection_name := Config.COLLECTION_NAME,
        prefetch :=
          [{ query := .dense dv, usingName := Config.DENSE_VECTOR_NAME,
             limit := Config.PREFETCH_LIMIT, filter := mkQueryFilter uid },
           { query := .sparse sv, usingName := Config.SPARSE_VECTOR_NAME,
             limit := Config.PREFETCH_LIMIT, filter := mkQueryFilter uid }],
        query := lv,
        usingName := Config.LATE_INTERACTION_VECTOR_NAME,
        limit := Config.RERANK_LIMIT,
        with_payload := ["title", "user_id", "text"],
        with_vectors := false } := by
  refine ⟨rfl, rfl, rfl, ?_⟩
  simp [initializedSearcher, HybridSearcher.buildRequest, hd, hs, hl]

/-- Witness for C9: concrete always-succeeding models. -/
theorem C9_witness :
    HybridSearcher.init Config.COLLECTION_NAME false
      (some embDense1) (some embSparse1) (some embLate1) =
      .ok (initializedSearcher embDense1 embSparse1 embLate1,
        [LogEvent.missingCollection Config.COLLECTION_NAME]) ∧
    initService false (some embDense1) (some embSparse1) (some embLate1) =
      some (initializedSearcher embDense1 embSparse1 embLate1) ∧
    health_check (initService false (some embDense1) (some embSparse1)
      (some embLate1)) true = .healthy ∧
    (initializedSearcher embDense1 embSparse1 embLate1).buildRequest
      "hello" none = .ok
      { collection_name := Config.COLLECTION_NAME,
        prefetch :=
          [{ query := .dense [1], usingName := Config.DENSE_VECTOR_NAME,
             limit := Config.PREFETCH_LIMIT,
             filter := mkQueryFilter none },
           { query := .sparse [(0, 1)],
             usingName := Config.SPARSE_VECTOR_NAME,
             limit := Config.PREFETCH_LIMIT,
             filter := mkQueryFilter none }],
        query := [[1]],
        usingName := Config.LATE_INTERACTION_VECTOR_NAME,
        limit := Config.RERANK_LIMIT,
        with_payload := ["title", "user_id", "text"],
        with_vectors := false } :=
  C9_missing_collection_nonfatal embDense1 embSparse1 embLate1
    "hello" none [1] [(0, 1)] [[1]] rfl rfl rfl

/-! ## Claim C10 -/

/-- Claim C10: a tenant filter given as the empty string is treated exactly
like no tenant filter — the built request is identical — and the searcher
attaches the tenant equality filter to both prefetches precisely when
`target_user_id` is a non-`None`, non-empty string (Python truthiness of
`if target_user_id:`). -/
theorem C10_empty_tenant_filter_is_no_filter
    (sr : HybridSearcher) (q : String) (uid : Option String)
    (req : QueryPointsRequest)
    (h : sr.buildRequest q uid = .ok req) :
    sr.buildRequest q (some "") = sr.buildRequest q none ∧
    req.prefetch.map Prefetch.filter =
      [mkQueryFilter uid, mkQueryFilter uid] ∧
    (mkQueryFilter uid = none ↔ uid = none ∨ uid = some "") ∧
    ∀ t : String, uid = some t → t ≠ "" →
      mkQueryFilter uid =
        some { key := Config.PAYLOAD_INDEX_FIELD, value := t } := by
  refine ⟨?_, ?_, ?_, ?_⟩
  · rcases hdm : sr.dense_embedding_model q with _ | dv <;>
      rcases hsm : sr.sparse_embedding_model q with _ | sv <;>
      rcases hlm : sr.late_interaction_embedding_model q with _ | lv <;>
      simp [HybridSearcher.buildRequest, hdm, hsm, hlm, mkQueryFilter]
  · rcases hdm : sr.dense_embedding_model q with _ | dv
    · rw [HybridSearcher.buildRequest, hdm] at h
      cases h
    · rcases hsm : sr.sparse_embedding_model q with _ | sv
      · rw [HybridSearcher.buildRequest, hdm, hsm] at h
        cases h
      · rcases hlm : sr.late_interaction_embedding_model q with _ | lv
        · rw [HybridSearcher.buildRequest, hdm, hsm, hlm] at h
          cases h
        · rw [HybridSearcher.buildRequest, hdm, hsm, hlm] at h
          have hreq := Except.ok.inj h
          rw [← hreq]
          rfl
  · rcases uid with _ | t
    · simp [mkQueryFilter]
    · by_cases ht : t = ""
      · subst ht
        simp [mkQueryFilter]
      · simp [mkQueryFilter, ht]
  · intro t htu hne
    subst htu
    simp [mkQueryFilter, hne]

/-- Witness for C10: the concrete request for tenant `"user_5"`. -/
theorem C10_witness :
    searcherExample.buildRequest "hello" (some "user_5") =
      .ok reqExample5 ∧
    (searcherExample.buildRequest "hello" (some "") =
      searcherExample.buildRequest "hello" none ∧
    reqExample5.prefetch.map Prefetch.filter =
      [mkQueryFilter (some "user_5"), mkQueryFilter (some "user_5")] ∧
    (mkQueryFilter (some "user_5") = none ↔
      (some "user_5" : Option String) = none ∨
      (some "user_5" : Option String) = some "") ∧
    ∀ t : String, (some "user_5" : Option String) = some t → t ≠ "" →
      mkQueryFilter (some "user_5") =
        some { key := Config.PAYLOAD_INDEX_FIELD, value := t }) :=
  ⟨rfl,
   C10_empty_tenant_filter_is_no_filter searcherExample "hello"
     (some "user_5") reqExample5 rfl⟩
